import Mathlib

/-!
Shallow embedding of the orchestration handler of
`service-b-orchestration/cmd/main.go`.

The handler (`app.handler`) is straight-line Go code: it validates the
postal code taken from the URL path, calls the ViaCEP geocoding provider,
decodes the body, classifies the outcome, calls the WeatherAPI provider,
decodes the body, converts the Celsius reading and writes a JSON response.
The network is modelled as an environment of oracles (URL to fetch result),
float64 values are modelled as rationals (all arithmetic exercised by the
theorems is exact in both), and the observable behaviour of a request is a
record of status code, body string, content type and an ordered trace of
span and outbound-call events.
-/

/-- UTF-8 encoding of a character, as the byte sequence Go iterates over
when percent-escaping a query component. -/
def utf8Bytes (c : Char) : List Nat :=
  let n := c.toNat
  if n < 128 then [n]
  else if n < 2048 then [192 + n / 64, 128 + n % 64]
  else if n < 65536 then [224 + n / 4096, 128 + (n / 64) % 64, 128 + n % 64]
  else [240 + n / 262144, 128 + (n / 4096) % 64, 128 + (n / 64) % 64, 128 + n % 64]

/-- Upper-case hexadecimal digit, used by Go's percent-encoding. -/
def hexUpperDigit (n : Nat) : Char :=
  if n < 10 then Char.ofNat (48 + n) else Char.ofNat (55 + n)

/-- Lower-case hexadecimal digit, used by Go's JSON unicode escapes. -/
def hexLowerDigit (n : Nat) : Char :=
  if n < 10 then Char.ofNat (48 + n) else Char.ofNat (87 + n)

/-- Bytes that Go's `url.QueryEscape` leaves unescaped: ASCII letters,
digits, and the marks `-`, `_`, `.`, `~`. -/
def isQueryUnescapedByte (n : Nat) : Bool :=
  (65 ≤ n && n ≤ 90) || (97 ≤ n && n ≤ 122) || (48 ≤ n && n ≤ 57) ||
    n == 45 || n == 95 || n == 46 || n == 126

/-- How Go's `url.QueryEscape` renders one byte: unreserved bytes pass
through, a space becomes a plus, everything else becomes a percent escape
with upper-case hex digits. -/
def queryEscapeByte (n : Nat) : String :=
  if isQueryUnescapedByte n then String.singleton (Char.ofNat n)
  else if n == 32 then "+"
  else String.mk ['%', hexUpperDigit (n / 16), hexUpperDigit (n % 16)]

/-- Model of Go's `url.QueryEscape`: escapes each UTF-8 byte of the
string. -/
def queryEscape (s : String) : String :=
  String.join ((s.data.flatMap utf8Bytes).map queryEscapeByte)

/-- JSON values, the result of parsing a well-formed provider body. -/
inductive JsonValue : Type where
  | null : JsonValue
  | bool : Bool → JsonValue
  | num : ℚ → JsonValue
  | str : String → JsonValue
  | arr : List JsonValue → JsonValue
  | obj : List (String × JsonValue) → JsonValue

/-- A provider response body as received over the wire: either not valid
JSON at all, or a well-formed JSON document. -/
inductive WireBody : Type where
  | malformed : String → WireBody
  | jsonValue : JsonValue → WireBody

/-- Mirror of the Go struct `ViaCEPResponse` with fields
`Localidade string` and `Erro bool` (json tags `localidade`, `erro`). -/
structure ViaCEPResponse where
  localidade : String
  erro : Bool
deriving DecidableEq

/-- Mirror of the anonymous struct `Current` inside `WeatherAPIResponse`,
holding `TempC float64` (json tag `temp_c`). -/
structure WeatherCurrent where
  temp_c : ℚ
deriving DecidableEq

/-- Mirror of the Go struct `WeatherAPIResponse` with field
`Current` (json tag `current`). -/
structure WeatherAPIResponse where
  current : WeatherCurrent
deriving DecidableEq

/-- Mirror of the Go struct `TempResponse`: the success payload with json
tags `city`, `temp_C`, `temp_F`, `temp_K`. -/
structure TempResponse where
  city : String
  tempC : ℚ
  tempF : ℚ
  tempK : ℚ
deriving DecidableEq

/-- Go's `encoding/json` matches object keys against field tags
case-insensitively when no exact match exists; with all-lower-case tags
this is a lower-cased comparison. -/
def keyMatches (k tag : String) : Bool :=
  k.toLower == tag

/-- One step of `json.Unmarshal` into `ViaCEPResponse`: a matching key
must carry a string (for `localidade`) or a bool (for `erro`); `null`
leaves the field untouched; a type mismatch is an unmarshal error; unknown
keys are ignored; later duplicates overwrite earlier ones. -/
def viaCEPStep (acc : ViaCEPResponse) (kv : String × JsonValue) :
    Except Unit ViaCEPResponse :=
  if keyMatches kv.1 "localidade" then
    match kv.2 with
    | JsonValue.str s => Except.ok { acc with localidade := s }
    | JsonValue.null => Except.ok acc
    | _ => Except.error ()
  else if keyMatches kv.1 "erro" then
    match kv.2 with
    | JsonValue.bool b => Except.ok { acc with erro := b }
    | JsonValue.null => Except.ok acc
    | _ => Except.error ()
  else Except.ok acc

/-- Model of `json.Unmarshal(body, &viaCepData)` on a parsed document: the
top level must be an object (or `null`, which leaves the zero value);
anything else is an unmarshal error. -/
def unmarshalViaCEP : JsonValue → Except Unit ViaCEPResponse
  | JsonValue.null => Except.ok { localidade := "", erro := false }
  | JsonValue.obj es => List.foldlM viaCEPStep { localidade := "", erro := false } es
  | _ => Except.error ()

/-- Unmarshal of a wire body into `ViaCEPResponse`: a malformed body is an
unmarshal error; a well-formed one is decoded structurally. -/
def unmarshalBodyViaCEP : WireBody → Except Unit ViaCEPResponse
  | WireBody.malformed _ => Except.error ()
  | WireBody.jsonValue j => unmarshalViaCEP j

/-- One step of `json.Unmarshal` into the nested `Current` struct: key
`temp_c` must carry a number (or `null`); a type mismatch is an error. -/
def currentStep (acc : WeatherCurrent) (kv : String × JsonValue) :
    Except Unit WeatherCurrent :=
  if keyMatches kv.1 "temp_c" then
    match kv.2 with
    | JsonValue.num q => Except.ok { acc with temp_c := q }
    | JsonValue.null => Except.ok acc
    | _ => Except.error ()
  else Except.ok acc

/-- Unmarshal of the value found under the `current` key: must be an
object or `null`; anything else is an unmarshal error. -/
def unmarshalCurrent (j : JsonValue) (acc : WeatherCurrent) :
    Except Unit WeatherCurrent :=
  match j with
  | JsonValue.null => Except.ok acc
  | JsonValue.obj es => List.foldlM currentStep acc es
  | _ => Except.error ()

/-- One step of `json.Unmarshal` into `WeatherAPIResponse`: key `current`
is decoded as the nested struct; unknown keys are ignored. -/
def weatherStep (acc : WeatherAPIResponse) (kv : String × JsonValue) :
    Except Unit WeatherAPIResponse :=
  if keyMatches kv.1 "current" then
    Except.map (fun c => { acc with current := c }) (unmarshalCurrent kv.2 acc.current)
  else Except.ok acc

/-- Model of `json.Unmarshal(body, &weatherData)` on a parsed document. -/
def unmarshalWeather : JsonValue → Except Unit WeatherAPIResponse
  | JsonValue.null => Except.ok { current := { temp_c := 0 } }
  | JsonValue.obj es => List.foldlM weatherStep { current := { temp_c := 0 } } es
  | _ => Except.error ()

/-- Unmarshal of a wire body into `WeatherAPIResponse`. -/
def unmarshalBodyWeather : WireBody → Except Unit WeatherAPIResponse
  | WireBody.malformed _ => Except.error ()
  | WireBody.jsonValue j => unmarshalWeather j

/-- Whether an `Except` computation succeeded. -/
def exceptOk {ε α : Type} : Except ε α → Bool
  | Except.ok _ => true
  | Except.error _ => false

/-- Decimal digits of the fractional part of a nonnegative rational below
one, most significant first; `fuel` bounds the expansion (all values this
development evaluates have short exact decimal expansions). -/
def fracDigits : Nat → ℚ → String
  | 0, _ => ""
  | fuel + 1, q =>
    if q = 0 then ""
    else
      String.singleton (Char.ofNat (48 + (Rat.floor (q * 10)).toNat)) ++
        fracDigits fuel (q * 10 - Rat.floor (q * 10))

/-- Minimal decimal rendering of a nonnegative rational, as Go's
`encoding/json` renders a float64 of moderate magnitude (shortest `%f`
form: no exponent, no trailing zeros, no decimal point for integers). -/
def renderNonnegFloat (q : ℚ) : String :=
  toString (Rat.floor q).toNat ++
    (if q - Rat.floor q = 0 then "" else "." ++ fracDigits 40 (q - Rat.floor q))

/-- Rendering of a float64 value by Go's JSON encoder, on the rational
model. -/
def renderGoFloat (q : ℚ) : String :=
  if q < 0 then "-" ++ renderNonnegFloat (-q) else renderNonnegFloat q

/-- How Go's JSON encoder escapes one character inside a string literal
(HTML escaping is on by default for `json.NewEncoder`). -/
def escapeJSONChar (c : Char) : String :=
  if c = '"' then "\\\""
  else if c = '\\' then "\\\\"
  else if c = '\n' then "\\n"
  else if c = '\r' then "\\r"
  else if c = '\t' then "\\t"
  else if c = '<' || c = '>' || c = '&' || c.toNat < 32 then
    String.mk ['\\', 'u', '0', '0', hexLowerDigit (c.toNat / 16), hexLowerDigit (c.toNat % 16)]
  else if c.toNat = 8232 || c.toNat = 8233 then
    String.mk ['\\', 'u', '2', '0', '2', hexLowerDigit (c.toNat % 16)]
  else String.singleton c

/-- Go JSON encoding of a string value, quotes included. -/
def encodeJSONString (s : String) : String :=
  "\"" ++ String.join (s.data.map escapeJSONChar) ++ "\""

/-- Go JSON encoding of a `TempResponse`, fields in struct order with
their json tags, exactly as `json.NewEncoder(w).Encode(response)` writes
it (the encoder's trailing newline is appended by the caller). -/
def encodeTempResponse (r : TempResponse) : String :=
  "\x7b\"city\":" ++ encodeJSONString r.city ++
    ",\"temp_C\":" ++ renderGoFloat r.tempC ++
    ",\"temp_F\":" ++ renderGoFloat r.tempF ++
    ",\"temp_K\":" ++ renderGoFloat r.tempK ++ "\x7d"

/-- Model of the validation `regexp.MustCompile` of eight digits anchored
at both ends, matched against the whole input: exactly eight characters,
each an ASCII digit. -/
def validCEP (s : String) : Bool :=
  s.length == 8 && s.data.all Char.isDigit

/-- The ViaCEP URL built by the handler for a given postal code. -/
def viaCepURLFor (cep : String) : String :=
  "https://viacep.com.br/ws/" ++ cep ++ "/json/"

/-- The WeatherAPI URL built by the handler from the configured key and
the (already escaped) city query component. -/
def weatherURLFor (key q : String) : String :=
  "http://api.weatherapi.com/v1/current.json?key=" ++ key ++ "&q=" ++ q

/-- Observable events of one request, in program order: span starts, span
ends, and outbound HTTP calls (with the request URL). -/
inductive Event : Type where
  | spanStart : String → Event
  | spanEnd : String → Event
  | httpCall : String → Event
deriving DecidableEq

/-- Whether an event is the start of the span with the given name. -/
def isSpanStart (name : String) (e : Event) : Bool :=
  match e with
  | Event.spanStart n => n == name
  | _ => false

/-- Whether an event is the end of the span with the given name. -/
def isSpanEnd (name : String) (e : Event) : Bool :=
  match e with
  | Event.spanEnd n => n == name
  | _ => false

/-- Whether an event is an outbound HTTP call. -/
def isHttpCall (e : Event) : Bool :=
  match e with
  | Event.httpCall _ => true
  | _ => false

/-- The URL carried by an outbound-call event, if it is one. -/
def eventCallURL : Event → Option String
  | Event.httpCall u => some u
  | _ => none

/-- The URLs of the outbound calls recorded in a trace, in order. -/
def httpCalls (t : List Event) : List String :=
  t.filterMap eventCallURL

/-- Outcome of `http.DefaultClient.Do`: a transport error, or a response
carrying a status code and a body. -/
inductive FetchResult : Type where
  | transportError : FetchResult
  | response : Nat → WireBody → FetchResult

/-- The status code of a fetched response, when there is one. The handler
never reads it; it is part of the model only so that theorems can state
that fact. -/
def fetchStatus : FetchResult → Option Nat
  | FetchResult.transportError => none
  | FetchResult.response s _ => some s

/-- The body of a fetched response, when there is one: everything the
handler actually consumes from a provider response. -/
def fetchBody : FetchResult → Option WireBody
  | FetchResult.transportError => none
  | FetchResult.response _ b => some b

/-- Mirror of `config.Config`: the weather API key the handler reads. -/
structure Config where
  weatherAPIKey : String
deriving DecidableEq

/-- The handler's environment: the network (a fetch oracle per URL, one
for each provider) and the loaded configuration. -/
structure Env where
  geocode : String → FetchResult
  weather : String → FetchResult
  cfg : Config

/-- Observable result of one request: HTTP status, whether the
Content-Type header was set to JSON, the exact body bytes, and the
ordered event trace. -/
structure HandlerResult where
  status : Nat
  contentTypeJSON : Bool
  body : String
  trace : List Event
deriving DecidableEq

/-- Mirror of the conversion and assembly block (lines 165 to 175 of
`main.go`): `tempF := tempC*1.8 + 32` and `tempK := tempC + 273`. -/
def assembleTempResponse (city : String) (tempC : ℚ) : TempResponse :=
  { city := city, tempC := tempC, tempF := tempC * 1.8 + 32, tempK := tempC + 273 }

/-- Trace of a request that got as far as completing the ViaCEP call: the
parent span opened, then the `call-viacep-api` child span bracketing the
outbound call (the child span ends right after `Do` returns, before any
error check). -/
def traceGeo (cep : String) : List Event :=
  [Event.spanStart "orchestration-handler",
   Event.spanStart "call-viacep-api",
   Event.httpCall (viaCepURLFor cep),
   Event.spanEnd "call-viacep-api"]

/-- Trace segment of the WeatherAPI call: the `call-weather-api` child
span bracketing the outbound call. -/
def traceWeather (key q : String) : List Event :=
  [Event.spanStart "call-weather-api",
   Event.httpCall (weatherURLFor key q),
   Event.spanEnd "call-weather-api"]

/-- Lines 157 to 185 of `main.go`: unmarshal the WeatherAPI body; on error
reply 500 with the weather-stage unmarshal message; otherwise convert and
encode the success payload (the encoder appends a newline). `http.Error`
writes the message followed by a newline and a plain-text content type. -/
def afterWeatherBody (city key cep : String) (b : WireBody) : HandlerResult :=
  match unmarshalBodyWeather b with
  | Except.error _ =>
    { status := 500, contentTypeJSON := false,
      body := "error unmarshalling WeatherAPI response\n",
      trace := traceGeo cep ++ traceWeather key (queryEscape city) ++
        [Event.spanEnd "orchestration-handler"] }
  | Except.ok weatherData =>
    { status := 200, contentTypeJSON := true,
      body := encodeTempResponse (assembleTempResponse city weatherData.current.temp_c) ++ "\n",
      trace := traceGeo cep ++ traceWeather key (queryEscape city) ++
        [Event.spanEnd "orchestration-handler"] }

/-- Lines 125 to 155 of `main.go`: unmarshal the ViaCEP body; on error
reply 500; if the provider error flag is set or the locality is empty
reply 404 "can not find zipcode"; otherwise escape the city, build the
WeatherAPI URL and perform the weather call inside its child span. -/
def afterViaCepBody (weatherFetch : String → FetchResult) (key cep : String)
    (b : WireBody) : HandlerResult :=
  match unmarshalBodyViaCEP b with
  | Except.error _ =>
    { status := 500, contentTypeJSON := false,
      body := "error unmarshalling ViaCEP response\n",
      trace := traceGeo cep ++ [Event.spanEnd "orchestration-handler"] }
  | Except.ok viaCepData =>
    if viaCepData.erro || viaCepData.localidade == "" then
      { status := 404, contentTypeJSON := false,
        body := "can not find zipcode\n",
        trace := traceGeo cep ++ [Event.spanEnd "orchestration-handler"] }
    else
      match weatherFetch (weatherURLFor key (queryEscape viaCepData.localidade)) with
      | FetchResult.transportError =>
        { status := 500, contentTypeJSON := false,
          body := "error fetching from WeatherAPI\n",
          trace := traceGeo cep ++ traceWeather key (queryEscape viaCepData.localidade) ++
            [Event.spanEnd "orchestration-handler"] }
      | FetchResult.response _ wbody =>
        afterWeatherBody viaCepData.localidade key cep wbody

/-- The orchestration handler `app.handler` of `main.go`: takes the postal
code from the URL path, validates it, then runs the geocode stage. The
parent span `orchestration-handler` is opened first and its deferred end
closes every trace. Only the body of a provider response is ever consumed;
response status codes are not inspected. -/
def handler (env : Env) (path : String) : HandlerResult :=
  if validCEP (path.drop 1) = false then
    { status := 422, contentTypeJSON := false,
      body := "invalid zipcode\n",
      trace := [Event.spanStart "orchestration-handler",
                Event.spanEnd "orchestration-handler"] }
  else
    match env.geocode (viaCepURLFor (path.drop 1)) with
    | FetchResult.transportError =>
      { status := 500, contentTypeJSON := false,
        body := "error fetching from ViaCEP\n",
        trace := traceGeo (path.drop 1) ++ [Event.spanEnd "orchestration-handler"] }
    | FetchResult.response _ gbody =>
      afterViaCepBody env.weather env.cfg.weatherAPIKey (path.drop 1) gbody

/-- A body is a single plain-text line when its last character is a
newline and it contains exactly one newline. -/
def isSingleLine (s : String) : Bool :=
  s.data.getLast? == some '\n' && (s.data.filter (fun c => c = '\n')).length == 1

/-- Whether a wire body is well-formed JSON. -/
def isWellFormedJson : WireBody → Bool
  | WireBody.malformed _ => false
  | WireBody.jsonValue _ => true

/-- Configuration used by the concrete runs: the key the repository's own
test injects. -/
def cfgTest : Config := { weatherAPIKey := "test-key" }

/-- Geocode body used by the concrete runs: the locality the repository's
own test uses. -/
def geoBodySP : WireBody :=
  WireBody.jsonValue (JsonValue.obj [("localidade", JsonValue.str "São Paulo")])

/-- Weather body used by the concrete runs: a current temperature of 25
degrees Celsius. -/
def weatherBody25 : WireBody :=
  WireBody.jsonValue (JsonValue.obj [("current", JsonValue.obj [("temp_c", JsonValue.num 25)])])

/-- Environment where both providers succeed: locality "São Paulo" and
temp_c 25. -/
def envSP : Env :=
  { geocode := fun _ => FetchResult.response 200 geoBodySP,
    weather := fun _ => FetchResult.response 200 weatherBody25,
    cfg := cfgTest }

/-- Environment where the geocode call fails at the transport level. -/
def envGeoFail : Env := { envSP with geocode := fun _ => FetchResult.transportError }

/-- Environment where the weather call fails at the transport level. -/
def envWeatherFail : Env := { envSP with weather := fun _ => FetchResult.transportError }

/-- Environment where the geocode provider reports its error flag. -/
def envNotFound : Env :=
  { envSP with geocode := fun _ =>
      FetchResult.response 200 (WireBody.jsonValue (JsonValue.obj [("erro", JsonValue.bool true)])) }

/-- Environment where the geocode provider replies with HTTP status 500
and an empty JSON object body. -/
def envStatus500Geo : Env :=
  { envSP with geocode := fun _ =>
      FetchResult.response 500 (WireBody.jsonValue (JsonValue.obj [])) }

/-- Same as `envStatus500Geo` but with HTTP status 200: the two differ
only in the status code of the geocode response. -/
def envStatus200Geo : Env :=
  { envSP with geocode := fun _ =>
      FetchResult.response 200 (WireBody.jsonValue (JsonValue.obj [])) }

/-- Environment where the weather body is well-formed JSON whose top
level is a number rather than an object. -/
def envWeatherNum : Env :=
  { envSP with weather := fun _ =>
      FetchResult.response 200 (WireBody.jsonValue (JsonValue.num 5)) }

/-- Environment where the weather body is an empty JSON object: valid
JSON that merely lacks the expected fields. -/
def envWeatherEmptyObj : Env :=
  { envSP with weather := fun _ =>
      FetchResult.response 200 (WireBody.jsonValue (JsonValue.obj [])) }

/-- Specification-side predicate (for the refinement claim about decode
errors): a `current`-object entry rejected by Go's unmarshal, namely a
`temp_c` key carrying neither a number nor `null`. -/
def currentEntryBad (kv : String × JsonValue) : Bool :=
  keyMatches kv.1 "temp_c" &&
    (match kv.2 with
     | JsonValue.num _ => false
     | JsonValue.null => false
     | _ => true)

/-- Specification-side predicate: a value under the `current` key that
Go's unmarshal rejects (anything but an object or `null`, or an object
with a rejected `temp_c` entry). -/
def currentValueBad : JsonValue → Bool
  | JsonValue.null => false
  | JsonValue.obj es => es.any currentEntryBad
  | _ => true

/-- Specification-side predicate: a top-level weather-object entry that
Go's unmarshal rejects. -/
def weatherEntryBad (kv : String × JsonValue) : Bool :=
  keyMatches kv.1 "current" && currentValueBad kv.2

/-- Specification-side predicate: a parsed weather document Go's
unmarshal rejects (non-object, non-null top level, or a rejected
`current` entry). -/
def weatherValueBad : JsonValue → Bool
  | JsonValue.null => false
  | JsonValue.obj es => es.any weatherEntryBad
  | _ => true

/-- Specification-side predicate: a weather body on which the weather
stage raises a decode error: a malformed body, or a well-formed one whose
structure type-mismatches the expected shape. -/
def weatherDecodeRejected : WireBody → Bool
  | WireBody.malformed _ => true
  | WireBody.jsonValue j => weatherValueBad j

theorem foldlM_exceptOk {σ α : Type} (step : σ → α → Except Unit σ)
    (bad : α → Bool) (hstep : ∀ acc a, exceptOk (step acc a) = !bad a) :
    ∀ (es : List α) (acc : σ),
      exceptOk (List.foldlM step acc es) = !es.any bad := by
  intro es
  induction es with
  | nil =>
    intro acc
    simp [List.foldlM, exceptOk, pure, Except.pure]
  | cons a l ih =>
    intro acc
    rw [List.foldlM_cons]
    cases hs : step acc a with
    | error e =>
      have hb := hstep acc a
      rw [hs] at hb
      simp [exceptOk] at hb
      simp [bind, Except.bind, exceptOk, List.any_cons, ← hb]
    | ok acc2 =>
      have hb := hstep acc a
      rw [hs] at hb
      simp [exceptOk] at hb
      simp [bind, Except.bind, List.any_cons, ← hb, ih acc2]

theorem currentStep_exceptOk (acc : WeatherCurrent) (kv : String × JsonValue) :
    exceptOk (currentStep acc kv) = !currentEntryBad kv := by
  rcases kv with ⟨k, v⟩
  by_cases hk : keyMatches k "temp_c" <;>
    cases v <;> simp [currentStep, currentEntryBad, hk, exceptOk]

theorem unmarshalCurrent_exceptOk (j : JsonValue) (acc : WeatherCurrent) :
    exceptOk (unmarshalCurrent j acc) = !currentValueBad j := by
  cases j with
  | obj es =>
    rw [show unmarshalCurrent (JsonValue.obj es) acc = List.foldlM currentStep acc es from rfl,
      foldlM_exceptOk currentStep currentEntryBad currentStep_exceptOk es acc]
    rfl
  | null => rfl
  | bool b => rfl
  | num q => rfl
  | str s => rfl
  | arr l => rfl

theorem weatherStep_exceptOk (acc : WeatherAPIResponse) (kv : String × JsonValue) :
    exceptOk (weatherStep acc kv) = !weatherEntryBad kv := by
  rcases kv with ⟨k, v⟩
  by_cases hk : keyMatches k "current"
  · have hc := unmarshalCurrent_exceptOk v acc.current
    cases hcv : unmarshalCurrent v acc.current with
    | error e =>
      rw [hcv] at hc
      simp [exceptOk] at hc
      simp [weatherStep, weatherEntryBad, hk, hcv, Except.map, exceptOk, ← hc]
    | ok c =>
      rw [hcv] at hc
      simp [exceptOk] at hc
      simp [weatherStep, weatherEntryBad, hk, hcv, Except.map, exceptOk, ← hc]
  · simp [weatherStep, weatherEntryBad, hk, exceptOk]

theorem unmarshalWeather_exceptOk (j : JsonValue) :
    exceptOk (unmarshalWeather j) = !weatherValueBad j := by
  cases j with
  | obj es =>
    rw [show unmarshalWeather (JsonValue.obj es) =
        List.foldlM weatherStep { current := { temp_c := 0 } } es from rfl,
      foldlM_exceptOk weatherStep weatherEntryBad weatherStep_exceptOk es]
    rfl
  | null => rfl
  | bool b => rfl
  | num q => rfl
  | str s => rfl
  | arr l => rfl

theorem unmarshalBodyWeather_exceptOk (b : WireBody) :
    exceptOk (unmarshalBodyWeather b) = !weatherDecodeRejected b := by
  cases b with
  | malformed s => rfl
  | jsonValue j => exact unmarshalWeather_exceptOk j

/-- Exhaustive enumeration of the observable outcomes of one request:
invalid input, geocode transport failure, geocode decode failure,
not-found, weather transport failure, weather decode failure, or success.
Every exit carries the deferred parent-span end as its last trace event
and a child span per call actually attempted. -/
theorem handler_cases (env : Env) (path : String) :
    handler env path =
      { status := 422, contentTypeJSON := false, body := "invalid zipcode\n",
        trace := [Event.spanStart "orchestration-handler",
                  Event.spanEnd "orchestration-handler"] } ∨
    handler env path =
      { status := 500, contentTypeJSON := false, body := "error fetching from ViaCEP\n",
        trace := traceGeo (path.drop 1) ++ [Event.spanEnd "orchestration-handler"] } ∨
    handler env path =
      { status := 500, contentTypeJSON := false,
        body := "error unmarshalling ViaCEP response\n",
        trace := traceGeo (path.drop 1) ++ [Event.spanEnd "orchestration-handler"] } ∨
    handler env path =
      { status := 404, contentTypeJSON := false, body := "can not find zipcode\n",
        trace := traceGeo (path.drop 1) ++ [Event.spanEnd "orchestration-handler"] } ∨
    (∃ q, handler env path =
      { status := 500, contentTypeJSON := false, body := "error fetching from WeatherAPI\n",
        trace := traceGeo (path.drop 1) ++ traceWeather env.cfg.weatherAPIKey q ++
          [Event.spanEnd "orchestration-handler"] }) ∨
    (∃ q, handler env path =
      { status := 500, contentTypeJSON := false,
        body := "error unmarshalling WeatherAPI response\n",
        trace := traceGeo (path.drop 1) ++ traceWeather env.cfg.weatherAPIKey q ++
          [Event.spanEnd "orchestration-handler"] }) ∨
    (∃ q r, handler env path =
      { status := 200, contentTypeJSON := true, body := encodeTempResponse r ++ "\n",
        trace := traceGeo (path.drop 1) ++ traceWeather env.cfg.weatherAPIKey q ++
          [Event.spanEnd "orchestration-handler"] }) := by
  unfold handler afterViaCepBody afterWeatherBody
  split
  · exact Or.inl rfl
  · split
    · exact Or.inr (Or.inl rfl)
    · split
      · exact Or.inr (Or.inr (Or.inl rfl))
      · next d hd =>
        split
        · exact Or.inr (Or.inr (Or.inr (Or.inl rfl)))
        · split
          · exact Or.inr (Or.inr (Or.inr (Or.inr (Or.inl
              ⟨queryEscape d.localidade, rfl⟩))))
          · split
            · exact Or.inr (Or.inr (Or.inr (Or.inr (Or.inr (Or.inl
                ⟨queryEscape d.localidade, rfl⟩)))))
            · next wd hwd =>
              exact Or.inr (Or.inr (Or.inr (Or.inr (Or.inr (Or.inr
                ⟨queryEscape d.localidade,
                 assembleTempResponse d.localidade wd.current.temp_c, rfl⟩)))))

/-- Reduction: an invalid postal code short-circuits to the 422 reply. -/
theorem handler_invalid (env : Env) (path : String)
    (hv : validCEP (path.drop 1) = false) :
    handler env path =
      { status := 422, contentTypeJSON := false, body := "invalid zipcode\n",
        trace := [Event.spanStart "orchestration-handler",
                  Event.spanEnd "orchestration-handler"] } := by
  unfold handler
  rw [if_pos hv]

/-- Reduction: a geocode transport error yields the ViaCEP fetch error
reply. -/
theorem handler_geoTransport (env : Env) (path : String)
    (hv : validCEP (path.drop 1) = true)
    (hg : env.geocode (viaCepURLFor (path.drop 1)) = FetchResult.transportError) :
    handler env path =
      { status := 500, contentTypeJSON := false, body := "error fetching from ViaCEP\n",
        trace := traceGeo (path.drop 1) ++ [Event.spanEnd "orchestration-handler"] } := by
  unfold handler
  rw [if_neg (by simp [hv]), hg]

/-- Reduction: a geocode response hands its body to the post-geocode
stage. -/
theorem handler_geoResponse (env : Env) (path : String) (s : Nat) (b : WireBody)
    (hv : validCEP (path.drop 1) = true)
    (hg : env.geocode (viaCepURLFor (path.drop 1)) = FetchResult.response s b) :
    handler env path =
      afterViaCepBody env.weather env.cfg.weatherAPIKey (path.drop 1) b := by
  unfold handler
  rw [if_neg (by simp [hv]), hg]

/-- Reduction: an undecodable geocode body yields the ViaCEP unmarshal
error reply. -/
theorem afterViaCep_decodeErr (w : String → FetchResult) (key cep : String)
    (b : WireBody) (hd : unmarshalBodyViaCEP b = Except.error ()) :
    afterViaCepBody w key cep b =
      { status := 500, contentTypeJSON := false,
        body := "error unmarshalling ViaCEP response\n",
        trace := traceGeo cep ++ [Event.spanEnd "orchestration-handler"] } := by
  unfold afterViaCepBody
  rw [hd]

/-- Reduction: a decoded geocode body with the error flag set or an empty
locality yields the 404 reply. -/
theorem afterViaCep_notFound (w : String → FetchResult) (key cep : String)
    (b : WireBody) (d : ViaCEPResponse)
    (hd : unmarshalBodyViaCEP b = Except.ok d)
    (hcond : (d.erro || d.localidade == "") = true) :
    afterViaCepBody w key cep b =
      { status := 404, contentTypeJSON := false, body := "can not find zipcode\n",
        trace := traceGeo cep ++ [Event.spanEnd "orchestration-handler"] } := by
  unfold afterViaCepBody
  rw [hd]
  exact if_pos hcond

/-- Reduction: a usable locality proceeds to the weather call; a
transport error there yields the WeatherAPI fetch error reply. -/
theorem afterViaCep_weatherTransport (w : String → FetchResult) (key cep : String)
    (b : WireBody) (d : ViaCEPResponse)
    (hd : unmarshalBodyViaCEP b = Except.ok d)
    (hcond : (d.erro || d.localidade == "") = false)
    (hw : w (weatherURLFor key (queryEscape d.localidade)) = FetchResult.transportError) :
    afterViaCepBody w key cep b =
      { status := 500, contentTypeJSON := false,
        body := "error fetching from WeatherAPI\n",
        trace := traceGeo cep ++ traceWeather key (queryEscape d.localidade) ++
          [Event.spanEnd "orchestration-handler"] } := by
  unfold afterViaCepBody
  rw [hd]
  dsimp only
  rw [if_neg (by simp [hcond]), hw]

/-- Reduction: a usable locality with a weather response hands the weather
body to the final stage. -/
theorem afterViaCep_weatherResponse (w : String → FetchResult) (key cep : String)
    (b : WireBody) (d : ViaCEPResponse) (s : Nat) (wb : WireBody)
    (hd : unmarshalBodyViaCEP b = Except.ok d)
    (hcond : (d.erro || d.localidade == "") = false)
    (hw : w (weatherURLFor key (queryEscape d.localidade)) = FetchResult.response s wb) :
    afterViaCepBody w key cep b = afterWeatherBody d.localidade key cep wb := by
  unfold afterViaCepBody
  rw [hd]
  dsimp only
  rw [if_neg (by simp [hcond]), hw]

/-- Reduction: an undecodable weather body yields the WeatherAPI unmarshal
error reply. -/
theorem afterWeather_decodeErr (city key cep : String) (b : WireBody)
    (hd : unmarshalBodyWeather b = Except.error ()) :
    afterWeatherBody city key cep b =
      { status := 500, contentTypeJSON := false,
        body := "error unmarshalling WeatherAPI response\n",
        trace := traceGeo cep ++ traceWeather key (queryEscape city) ++
          [Event.spanEnd "orchestration-handler"] } := by
  unfold afterWeatherBody
  rw [hd]

/-- Reduction: a decoded weather body yields the 200 reply with the
assembled and encoded payload. -/
theorem afterWeather_success (city key cep : String) (b : WireBody)
    (wd : WeatherAPIResponse) (hd : unmarshalBodyWeather b = Except.ok wd) :
    afterWeatherBody city key cep b =
      { status := 200, contentTypeJSON := true,
        body := encodeTempResponse (assembleTempResponse city wd.current.temp_c) ++ "\n",
        trace := traceGeo cep ++ traceWeather key (queryEscape city) ++
          [Event.spanEnd "orchestration-handler"] } := by
  unfold afterWeatherBody
  rw [hd]

/-- Claim C1, counterexample: the code adds 273, not 273.15, to convert to
Kelvin (its own test expects temp_K = 298 for temp_c = 25), so with
geocode locality "São Paulo" and weather temp_c = 25 the success body is
not the claimed one containing temp_K 298.15. -/
theorem c1_counterexample :
    (assembleTempResponse "São Paulo" 25).tempK ≠ 25 + 273.15 ∧
    (handler envSP "/01001000").status = 200 ∧
    (handler envSP "/01001000").body ≠
      "\x7b\"city\":\"São Paulo\",\"temp_C\":25,\"temp_F\":77,\"temp_K\":298.15\x7d" := by
  refine ⟨?_, ?_, ?_⟩ <;> with_unfolding_all decide

/-- Claim C1 as amended: for every celsius input the assembled response
satisfies fahrenheit = celsius times 1.8 plus 32 and kelvin = celsius
plus 273; for a validated request whose geocode call succeeds with
locality "São Paulo" and whose weather call succeeds with temp_c = 25,
the success body is the JSON object with city "São Paulo", temp_C 25,
temp_F 77 and temp_K 298, followed by the encoder's newline. -/
theorem c1_conversion_and_success_body :
    (∀ (city : String) (c : ℚ),
      (assembleTempResponse city c).tempF = c * 1.8 + 32 ∧
      (assembleTempResponse city c).tempK = c + 273) ∧
    (handler envSP "/01001000").status = 200 ∧
    (handler envSP "/01001000").contentTypeJSON = true ∧
    (handler envSP "/01001000").body =
      "\x7b\"city\":\"São Paulo\",\"temp_C\":25,\"temp_F\":77,\"temp_K\":298\x7d\n" := by
  refine ⟨fun city c => ⟨rfl, rfl⟩, ?_, ?_, ?_⟩ <;> with_unfolding_all decide

/-- Claim C2, counterexample: on an invalid input the handler does return
the validation status and performs zero outbound calls, but the body is
"invalid zipcode" followed by a newline (`http.Error` appends one), not
the bare string "invalid zipcode". -/
theorem c2_counterexample :
    (handler envSP "/1234567").status = 422 ∧
    httpCalls (handler envSP "/1234567").trace = [] ∧
    (handler envSP "/1234567").body = "invalid zipcode\n" ∧
    (handler envSP "/1234567").body ≠ "invalid zipcode" := by
  refine ⟨?_, ?_, ?_, ?_⟩ <;> with_unfolding_all decide

/-- Claim C2 as amended: for every input that is not exactly 8 ASCII
digits, the handler returns status 422 with body "invalid zipcode"
followed by a newline, and performs zero outbound calls. -/
theorem c2_invalid_input (env : Env) (path : String)
    (h : validCEP (path.drop 1) = false) :
    (handler env path).status = 422 ∧
    (handler env path).body = "invalid zipcode\n" ∧
    httpCalls (handler env path).trace = [] := by
  unfold handler
  rw [if_pos h]
  refine ⟨rfl, rfl, ?_⟩
  simp [httpCalls, eventCallURL]

/-- Witness for `c2_invalid_input` at the concrete input "1234567". -/
theorem c2_invalid_input_witness :
    validCEP (("/1234567" : String).drop 1) = false ∧
    ((handler envSP "/1234567").status = 422 ∧
     (handler envSP "/1234567").body = "invalid zipcode\n" ∧
     httpCalls (handler envSP "/1234567").trace = []) :=
  ⟨by decide, c2_invalid_input envSP "/1234567" (by decide)⟩

/-- Claim C3: for every validated request whose geocode call returns a
decodable body with the error flag set or an empty locality, the handler
returns 404 with body "can not find zipcode" plus newline, and the only
outbound call in the trace is the geocode one: the weather resolver is
never invoked. -/
theorem c3_geocode_miss (env : Env) (path : String) (status : Nat)
    (b : WireBody) (d : ViaCEPResponse)
    (hv : validCEP (path.drop 1) = true)
    (hg : env.geocode (viaCepURLFor (path.drop 1)) = FetchResult.response status b)
    (hd : unmarshalBodyViaCEP b = Except.ok d)
    (hmiss : d.erro = true ∨ d.localidade = "") :
    (handler env path).status = 404 ∧
    (handler env path).body = "can not find zipcode\n" ∧
    httpCalls (handler env path).trace = [viaCepURLFor (path.drop 1)] := by
  have hcond : (d.erro || d.localidade == "") = true := by
    rcases hmiss with h | h
    · simp [h]
    · simp [h]
  rw [handler_geoResponse env path status b hv hg,
    afterViaCep_notFound env.weather env.cfg.weatherAPIKey (path.drop 1) b d hd hcond]
  refine ⟨rfl, rfl, ?_⟩
  simp [httpCalls, eventCallURL, traceGeo]

/-- Witness for `c3_geocode_miss`: the geocode provider answers with the
error-flag body, and the handler indeed replies 404 without a weather
call. -/
theorem c3_geocode_miss_witness :
    validCEP (("/01001000" : String).drop 1) = true ∧
    envNotFound.geocode (viaCepURLFor (("/01001000" : String).drop 1)) =
      FetchResult.response 200 (WireBody.jsonValue (JsonValue.obj [("erro", JsonValue.bool true)])) ∧
    unmarshalBodyViaCEP (WireBody.jsonValue (JsonValue.obj [("erro", JsonValue.bool true)])) =
      Except.ok { localidade := "", erro := true } ∧
    ((handler envNotFound "/01001000").status = 404 ∧
     (handler envNotFound "/01001000").body = "can not find zipcode\n" ∧
     httpCalls (handler envNotFound "/01001000").trace =
       [viaCepURLFor (("/01001000" : String).drop 1)]) :=
  ⟨by decide, rfl, by with_unfolding_all rfl,
   c3_geocode_miss envNotFound "/01001000" 200
     (WireBody.jsonValue (JsonValue.obj [("erro", JsonValue.bool true)]))
     { localidade := "", erro := true } (by decide) rfl
     (by with_unfolding_all rfl) (Or.inl rfl)⟩

/-- Claim C7: the handler is a function of the request path, the upstream
oracles and the configuration alone, so two runs against the same
environment and path produce identical statuses and byte-identical
bodies. -/
theorem c7_deterministic (env1 env2 : Env) (path1 path2 : String)
    (henv : env1 = env2) (hpath : path1 = path2) :
    (handler env1 path1).body = (handler env2 path2).body ∧
    (handler env1 path1).status = (handler env2 path2).status := by
  subst henv
  subst hpath
  exact ⟨rfl, rfl⟩

/-- Witness for `c7_deterministic` on the concrete success run. -/
theorem c7_deterministic_witness :
    envSP = envSP ∧ ("/01001000" : String) = "/01001000" ∧
    ((handler envSP "/01001000").body = (handler envSP "/01001000").body ∧
     (handler envSP "/01001000").status = (handler envSP "/01001000").status) :=
  ⟨rfl, rfl, c7_deterministic envSP envSP "/01001000" "/01001000" rfl rfl⟩

/-- Claim C4, counterexample: the failure bodies are not generic — the two
transport-failure replies name the failing stage ("ViaCEP" versus
"WeatherAPI") in the response body itself, so the stage is visible to the
client, not only in logs and spans. -/
theorem c4_counterexample :
    (handler envGeoFail "/01001000").status = 500 ∧
    (handler envGeoFail "/01001000").body = "error fetching from ViaCEP\n" ∧
    (handler envWeatherFail "/01001000").status = 500 ∧
    (handler envWeatherFail "/01001000").body = "error fetching from WeatherAPI\n" ∧
    (handler envGeoFail "/01001000").body ≠ (handler envWeatherFail "/01001000").body := by
  refine ⟨?_, ?_, ?_, ?_, ?_⟩ <;> with_unfolding_all decide

/-- Claim C4 as amended: every transport error or non-decodable body at
either stage yields status 500, with the fixed plain-text message of that
stage as the body (four universal implications, one per failure kind);
conversely every 500 body is one of those four stage-naming messages, so
the failing stage is visible in the body; and every non-success reply is
a single plain-text line without the JSON content type. -/
theorem c4_failure_bodies (env : Env) (path : String) :
    ((handler env path).status ≠ 200 →
      isSingleLine (handler env path).body = true ∧
      (handler env path).contentTypeJSON = false) ∧
    ((handler env path).status = 500 →
      (handler env path).body = "error fetching from ViaCEP\n" ∨
      (handler env path).body = "error unmarshalling ViaCEP response\n" ∨
      (handler env path).body = "error fetching from WeatherAPI\n" ∨
      (handler env path).body = "error unmarshalling WeatherAPI response\n") ∧
    (validCEP (path.drop 1) = true →
      env.geocode (viaCepURLFor (path.drop 1)) = FetchResult.transportError →
      (handler env path).status = 500 ∧
      (handler env path).body = "error fetching from ViaCEP\n") ∧
    (∀ s b, validCEP (path.drop 1) = true →
      env.geocode (viaCepURLFor (path.drop 1)) = FetchResult.response s b →
      unmarshalBodyViaCEP b = Except.error () →
      (handler env path).status = 500 ∧
      (handler env path).body = "error unmarshalling ViaCEP response\n") ∧
    (∀ s b d, validCEP (path.drop 1) = true →
      env.geocode (viaCepURLFor (path.drop 1)) = FetchResult.response s b →
      unmarshalBodyViaCEP b = Except.ok d →
      (d.erro || d.localidade == "") = false →
      env.weather (weatherURLFor env.cfg.weatherAPIKey (queryEscape d.localidade)) =
        FetchResult.transportError →
      (handler env path).status = 500 ∧
      (handler env path).body = "error fetching from WeatherAPI\n") ∧
    (∀ s b d s2 wb, validCEP (path.drop 1) = true →
      env.geocode (viaCepURLFor (path.drop 1)) = FetchResult.response s b →
      unmarshalBodyViaCEP b = Except.ok d →
      (d.erro || d.localidade == "") = false →
      env.weather (weatherURLFor env.cfg.weatherAPIKey (queryEscape d.localidade)) =
        FetchResult.response s2 wb →
      unmarshalBodyWeather wb = Except.error () →
      (handler env path).status = 500 ∧
      (handler env path).body = "error unmarshalling WeatherAPI response\n") := by
  refine ⟨?_, ?_, ?_, ?_, ?_, ?_⟩
  · intro hns
    rcases handler_cases env path with h | h | h | h | ⟨q, h⟩ | ⟨q, h⟩ | ⟨q, r, h⟩
    · rw [h]
      exact ⟨(by decide : isSingleLine ("invalid zipcode\n") = true), rfl⟩
    · rw [h]
      exact ⟨(by decide : isSingleLine ("error fetching from ViaCEP\n") = true), rfl⟩
    · rw [h]
      exact ⟨(by decide : isSingleLine ("error unmarshalling ViaCEP response\n") = true), rfl⟩
    · rw [h]
      exact ⟨(by decide : isSingleLine ("can not find zipcode\n") = true), rfl⟩
    · rw [h]
      exact ⟨(by decide : isSingleLine ("error fetching from WeatherAPI\n") = true), rfl⟩
    · rw [h]
      exact ⟨(by decide : isSingleLine ("error unmarshalling WeatherAPI response\n") = true), rfl⟩
    · rw [h] at hns
      exact absurd rfl hns
  · intro hs
    rcases handler_cases env path with h | h | h | h | ⟨q, h⟩ | ⟨q, h⟩ | ⟨q, r, h⟩
    · rw [h] at hs
      simp at hs
    · rw [h]
      exact Or.inl rfl
    · rw [h]
      exact Or.inr (Or.inl rfl)
    · rw [h] at hs
      simp at hs
    · rw [h]
      exact Or.inr (Or.inr (Or.inl rfl))
    · rw [h]
      exact Or.inr (Or.inr (Or.inr rfl))
    · rw [h] at hs
      simp at hs
  · intro hv hg
    rw [handler_geoTransport env path hv hg]
    exact ⟨rfl, rfl⟩
  · intro s b hv hg hd
    rw [handler_geoResponse env path s b hv hg,
      afterViaCep_decodeErr env.weather env.cfg.weatherAPIKey (path.drop 1) b hd]
    exact ⟨rfl, rfl⟩
  · intro s b d hv hg hd hcond hw
    rw [handler_geoResponse env path s b hv hg,
      afterViaCep_weatherTransport env.weather env.cfg.weatherAPIKey (path.drop 1) b d
        hd hcond hw]
    exact ⟨rfl, rfl⟩
  · intro s b d s2 wb hv hg hd hcond hw hwd
    rw [handler_geoResponse env path s b hv hg,
      afterViaCep_weatherResponse env.weather env.cfg.weatherAPIKey (path.drop 1) b d
        s2 wb hd hcond hw,
      afterWeather_decodeErr d.localidade env.cfg.weatherAPIKey (path.drop 1) wb hwd]
    exact ⟨rfl, rfl⟩

/-- Witness for `c4_failure_bodies`: a concrete geocode transport failure
(forward direction of the geocode stage and both converse conjuncts) and a
concrete weather decode failure (forward direction of the weather
stage). -/
theorem c4_failure_bodies_witness :
    (handler envGeoFail "/01001000").status ≠ 200 ∧
    isSingleLine (handler envGeoFail "/01001000").body = true ∧
    ((handler envGeoFail "/01001000").body = "error fetching from ViaCEP\n" ∨
     (handler envGeoFail "/01001000").body = "error unmarshalling ViaCEP response\n" ∨
     (handler envGeoFail "/01001000").body = "error fetching from WeatherAPI\n" ∨
     (handler envGeoFail "/01001000").body = "error unmarshalling WeatherAPI response\n") ∧
    validCEP (("/01001000" : String).drop 1) = true ∧
    envGeoFail.geocode (viaCepURLFor (("/01001000" : String).drop 1)) =
      FetchResult.transportError ∧
    ((handler envGeoFail "/01001000").status = 500 ∧
     (handler envGeoFail "/01001000").body = "error fetching from ViaCEP\n") ∧
    unmarshalBodyWeather (WireBody.jsonValue (JsonValue.num 5)) = Except.error () ∧
    ((handler envWeatherNum "/01001000").status = 500 ∧
     (handler envWeatherNum "/01001000").body =
       "error unmarshalling WeatherAPI response\n") :=
  ⟨by with_unfolding_all decide,
   ((c4_failure_bodies envGeoFail "/01001000").1 (by with_unfolding_all decide)).1,
   (c4_failure_bodies envGeoFail "/01001000").2.1 (by with_unfolding_all decide),
   by decide, rfl,
   (c4_failure_bodies envGeoFail "/01001000").2.2.1 (by decide) rfl,
   rfl,
   (c4_failure_bodies envWeatherNum "/01001000").2.2.2.2.2 200 geoBodySP
     { localidade := "São Paulo", erro := false } 200
     (WireBody.jsonValue (JsonValue.num 5))
     (by decide) rfl (by with_unfolding_all rfl) (by decide) rfl rfl⟩

/-- Claim C8: in every completed request the parent span

is opened and closed exactly once, each child span's starts equal its
ends, each outbound call corresponds to exactly one closed child span,
and each child span closes at most once. -/
theorem c8_span_lifecycle (env : Env) (path : String) :
    List.countP (isSpanEnd "orchestration-handler") (handler env path).trace = 1 ∧
    List.countP (isSpanStart "orchestration-handler") (handler env path).trace = 1 ∧
    List.countP (isSpanStart "call-viacep-api") (handler env path).trace =
      List.countP (isSpanEnd "call-viacep-api") (handler env path).trace ∧
    List.countP (isSpanStart "call-weather-api") (handler env path).trace =
      List.countP (isSpanEnd "call-weather-api") (handler env path).trace ∧
    List.countP isHttpCall (handler env path).trace =
      List.countP (isSpanEnd "call-viacep-api") (handler env path).trace +
      List.countP (isSpanEnd "call-weather-api") (handler env path).trace ∧
    List.countP (isSpanEnd "call-viacep-api") (handler env path).trace ≤ 1 ∧
    List.countP (isSpanEnd "call-weather-api") (handler env path).trace ≤ 1 := by
  rcases handler_cases env path with h | h | h | h | ⟨q, h⟩ | ⟨q, h⟩ | ⟨q, r, h⟩ <;>
    rw [h] <;>
    simp [traceGeo, traceWeather, isSpanStart, isSpanEnd, isHttpCall,
      List.countP_cons, List.countP_append]

/-- Claim C9, counterexample: a weather body that is well-formed JSON (a
bare number) still raises a decode error, so "decode error iff the body is
not valid JSON" fails; the handler replies 500 for it. -/
theorem c9_counterexample :
    isWellFormedJson (WireBody.jsonValue (JsonValue.num 5)) = true ∧
    unmarshalBodyWeather (WireBody.jsonValue (JsonValue.num 5)) = Except.error () ∧
    (handler envWeatherNum "/01001000").status = 500 ∧
    (handler envWeatherNum "/01001000").body = "error unmarshalling WeatherAPI response\n" := by
  refine ⟨rfl, rfl, ?_, ?_⟩ <;> with_unfolding_all decide

/-- Claim C9 as amended: the weather stage raises a decode error exactly
when the body is not valid JSON or is valid JSON whose structure
type-mismatches the expected shape (non-object top level other than null,
a `current` that is neither object nor null, a `temp_c` that is neither
number nor null); a JSON object merely missing those fields — such as the
empty object — is accepted, and the handler returns 200 with temp_C 0 and
the derived fields computed from 0. -/
theorem c9_decode_error_characterization :
    (∀ b : WireBody, exceptOk (unmarshalBodyWeather b) = !weatherDecodeRejected b) ∧
    weatherDecodeRejected (WireBody.jsonValue (JsonValue.obj [])) = false ∧
    (handler envWeatherEmptyObj "/01001000").status = 200 ∧
    (handler envWeatherEmptyObj "/01001000").body =
      "\x7b\"city\":\"São Paulo\",\"temp_C\":0,\"temp_F\":32,\"temp_K\":273\x7d\n" := by
  refine ⟨unmarshalBodyWeather_exceptOk, rfl, ?_, ?_⟩ <;> with_unfolding_all decide

/-- Claim C10: the geocode response's HTTP status code is never
inspected — any two environments whose geocode oracles agree on response
bodies (and agree on the weather oracle and configuration) produce
identical results — and concretely a geocode reply with status 500 whose
body is the empty JSON object (absent locality) is classified 404
"can not find zipcode". -/
theorem c10_status_code_ignored :
    (∀ (env1 env2 : Env) (path : String),
      env1.weather = env2.weather → env1.cfg = env2.cfg →
      (∀ u, fetchBody (env1.geocode u) = fetchBody (env2.geocode u)) →
      handler env1 path = handler env2 path) ∧
    (handler envStatus500Geo "/01001000").status = 404 ∧
    (handler envStatus500Geo "/01001000").body = "can not find zipcode\n" := by
  refine ⟨?_, ?_, ?_⟩
  · intro env1 env2 path hw hc hb
    by_cases hv : validCEP (path.drop 1) = false
    · rw [handler_invalid env1 path hv, handler_invalid env2 path hv]
    · have hv2 : validCEP (path.drop 1) = true := by
        cases hvb : validCEP (path.drop 1)
        · exact absurd hvb hv
        · rfl
      have hbu := hb (viaCepURLFor (path.drop 1))
      cases h1 : env1.geocode (viaCepURLFor (path.drop 1)) with
      | transportError =>
        cases h2 : env2.geocode (viaCepURLFor (path.drop 1)) with
        | transportError =>
          rw [handler_geoTransport env1 path hv2 h1, handler_geoTransport env2 path hv2 h2]
        | response s b =>
          rw [h1, h2] at hbu
          simp [fetchBody] at hbu
      | response s b =>
        cases h2 : env2.geocode (viaCepURLFor (path.drop 1)) with
        | transportError =>
          rw [h1, h2] at hbu
          simp [fetchBody] at hbu
        | response s2 b2 =>
          rw [h1, h2] at hbu
          simp [fetchBody] at hbu
          rw [handler_geoResponse env1 path s b hv2 h1,
            handler_geoResponse env2 path s2 b2 hv2 h2, hw, hc, hbu]
  · with_unfolding_all decide
  · with_unfolding_all decide

/-- Witness for `c10_status_code_ignored`: two oracles answering the same
body under status 500 and status 200 produce identical handler results. -/
theorem c10_status_code_ignored_witness :
    fetchBody (envStatus500Geo.geocode "u") = fetchBody (envStatus200Geo.geocode "u") ∧
    envStatus500Geo.weather = envStatus200Geo.weather ∧
    envStatus500Geo.cfg = envStatus200Geo.cfg ∧
    handler envStatus500Geo "/01001000" = handler envStatus200Geo "/01001000" :=
  ⟨rfl, rfl, rfl,
   c10_status_code_ignored.1 envStatus500Geo envStatus200Geo "/01001000" rfl rfl
     (fun _ => rfl)⟩

/-- Claim C5: per request each provider is called at most once and in
order (no calls, the geocode call alone, or geocode then weather); a
geocode transport failure yields a 500 with the weather resolver never
invoked; and whenever two calls happened, the geocode call had already
succeeded with a decodable body carrying a usable locality, and the second
call was the weather one. -/
theorem c5_sequential_calls (env : Env) (path : String) :
    (httpCalls (handler env path).trace = [] ∨
     httpCalls (handler env path).trace = [viaCepURLFor (path.drop 1)] ∨
     ∃ q, httpCalls (handler env path).trace =
       [viaCepURLFor (path.drop 1), weatherURLFor env.cfg.weatherAPIKey q]) ∧
    (validCEP (path.drop 1) = true →
      env.geocode (viaCepURLFor (path.drop 1)) = FetchResult.transportError →
      (handler env path).status = 500 ∧
      httpCalls (handler env path).trace = [viaCepURLFor (path.drop 1)]) ∧
    (∀ u w, httpCalls (handler env path).trace = [u, w] →
      ∃ s b d,
        env.geocode (viaCepURLFor (path.drop 1)) = FetchResult.response s b ∧
        unmarshalBodyViaCEP b = Except.ok d ∧
        d.erro = false ∧ d.localidade ≠ "" ∧
        u = viaCepURLFor (path.drop 1) ∧
        w = weatherURLFor env.cfg.weatherAPIKey (queryEscape d.localidade)) := by
  refine ⟨?_, ?_, ?_⟩
  · rcases handler_cases env path with h | h | h | h | ⟨q, h⟩ | ⟨q, h⟩ | ⟨q, r, h⟩
    · left
      rw [h]
      simp [httpCalls, eventCallURL]
    · right; left
      rw [h]
      simp [httpCalls, eventCallURL, traceGeo]
    · right; left
      rw [h]
      simp [httpCalls, eventCallURL, traceGeo]
    · right; left
      rw [h]
      simp [httpCalls, eventCallURL, traceGeo]
    · right; right
      exact ⟨q, by rw [h]; simp [httpCalls, eventCallURL, traceGeo, traceWeather]⟩
    · right; right
      exact ⟨q, by rw [h]; simp [httpCalls, eventCallURL, traceGeo, traceWeather]⟩
    · right; right
      exact ⟨q, by rw [h]; simp [httpCalls, eventCallURL, traceGeo, traceWeather]⟩
  · intro hv hg
    rw [handler_geoTransport env path hv hg]
    refine ⟨rfl, ?_⟩
    simp [httpCalls, eventCallURL, traceGeo]
  · intro u w hlen
    by_cases hv : validCEP (path.drop 1) = false
    · rw [handler_invalid env path hv] at hlen
      simp [httpCalls, eventCallURL] at hlen
    · have hv2 : validCEP (path.drop 1) = true := by
        cases hvb : validCEP (path.drop 1)
        · exact absurd hvb hv
        · rfl
      cases h1 : env.geocode (viaCepURLFor (path.drop 1)) with
      | transportError =>
        rw [handler_geoTransport env path hv2 h1] at hlen
        simp [httpCalls, eventCallURL, traceGeo] at hlen
      | response s b =>
        rw [handler_geoResponse env path s b hv2 h1] at hlen
        cases h2 : unmarshalBodyViaCEP b with
        | error e =>
          cases e
          rw [afterViaCep_decodeErr env.weather env.cfg.weatherAPIKey (path.drop 1) b h2]
            at hlen
          simp [httpCalls, eventCallURL, traceGeo] at hlen
        | ok d =>
          by_cases hcond : (d.erro || d.localidade == "") = true
          · rw [afterViaCep_notFound env.weather env.cfg.weatherAPIKey (path.drop 1) b d
              h2 hcond] at hlen
            simp [httpCalls, eventCallURL, traceGeo] at hlen
          · have hcondf : (d.erro || d.localidade == "") = false := by
              cases hb : (d.erro || d.localidade == "")
              · rfl
              · exact absurd hb hcond
            have herro : d.erro = false := by
              cases hb : d.erro
              · rfl
              · rw [hb] at hcondf
                simp at hcondf
            have hloc : d.localidade ≠ "" := by
              intro hh
              rw [hh] at hcondf
              simp at hcondf
            cases h3 : env.weather
                (weatherURLFor env.cfg.weatherAPIKey (queryEscape d.localidade)) with
            | transportError =>
              rw [afterViaCep_weatherTransport env.weather env.cfg.weatherAPIKey
                (path.drop 1) b d h2 hcondf h3] at hlen
              simp [httpCalls, eventCallURL, traceGeo, traceWeather] at hlen
              exact ⟨s, b, d, rfl, h2, herro, hloc, hlen.1.symm, hlen.2.symm⟩
            | response s2 b2 =>
              rw [afterViaCep_weatherResponse env.weather env.cfg.weatherAPIKey
                (path.drop 1) b d s2 b2 h2 hcondf h3] at hlen
              cases h4 : unmarshalBodyWeather b2 with
              | error e =>
                cases e
                rw [afterWeather_decodeErr d.localidade env.cfg.weatherAPIKey
                  (path.drop 1) b2 h4] at hlen
                simp [httpCalls, eventCallURL, traceGeo, traceWeather] at hlen
                exact ⟨s, b, d, rfl, h2, herro, hloc, hlen.1.symm, hlen.2.symm⟩
              | ok wd =>
                rw [afterWeather_success d.localidade env.cfg.weatherAPIKey
                  (path.drop 1) b2 wd h4] at hlen
                simp [httpCalls, eventCallURL, traceGeo, traceWeather] at hlen
                exact ⟨s, b, d, rfl, h2, herro, hloc, hlen.1.symm, hlen.2.symm⟩

/-- Witness for `c5_sequential_calls`: the geocode transport failure case
at a valid postal code, and the two-call success case with the escaped
city in the weather URL. -/
theorem c5_sequential_calls_witness :
    validCEP (("/01001000" : String).drop 1) = true ∧
    envGeoFail.geocode (viaCepURLFor (("/01001000" : String).drop 1)) =
      FetchResult.transportError ∧
    ((handler envGeoFail "/01001000").status = 500 ∧
     httpCalls (handler envGeoFail "/01001000").trace =
       [viaCepURLFor (("/01001000" : String).drop 1)]) ∧
    httpCalls (handler envSP "/01001000").trace =
      [viaCepURLFor (("/01001000" : String).drop 1),
       weatherURLFor "test-key" "S%C3%A3o+Paulo"] ∧
    (∃ s b d,
      envSP.geocode (viaCepURLFor (("/01001000" : String).drop 1)) =
        FetchResult.response s b ∧
      unmarshalBodyViaCEP b = Except.ok d ∧
      d.erro = false ∧ d.localidade ≠ "" ∧
      viaCepURLFor (("/01001000" : String).drop 1) =
        viaCepURLFor (("/01001000" : String).drop 1) ∧
      weatherURLFor "test-key" "S%C3%A3o+Paulo" =
        weatherURLFor envSP.cfg.weatherAPIKey (queryEscape d.localidade)) :=
  ⟨by decide, rfl,
   (c5_sequential_calls envGeoFail "/01001000").2.1 (by decide) rfl,
   by with_unfolding_all decide,
   (c5_sequential_calls envSP "/01001000").2.2
     (viaCepURLFor (("/01001000" : String).drop 1))
     (weatherURLFor "test-key" "S%C3%A3o+Paulo")
     (by with_unfolding_all decide)⟩

/-- Claim C6: on every success the decoded locality reaches the response
city field unmodified and reaches the weather provider's query string
URL-escaped; concretely, "São Paulo" escapes to "S%C3%A3o+Paulo". -/
theorem c6_locality_unmodified_and_escaped (env : Env) (path : String)
    (h200 : (handler env path).status = 200) :
    (∃ s b d s2 wb wd,
      env.geocode (viaCepURLFor (path.drop 1)) = FetchResult.response s b ∧
      unmarshalBodyViaCEP b = Except.ok d ∧
      env.weather (weatherURLFor env.cfg.weatherAPIKey (queryEscape d.localidade)) =
        FetchResult.response s2 wb ∧
      unmarshalBodyWeather wb = Except.ok wd ∧
      (assembleTempResponse d.localidade wd.current.temp_c).city = d.localidade ∧
      (handler env path).body =
        encodeTempResponse (assembleTempResponse d.localidade wd.current.temp_c) ++ "\n" ∧
      httpCalls (handler env path).trace =
        [viaCepURLFor (path.drop 1),
         weatherURLFor env.cfg.weatherAPIKey (queryEscape d.localidade)]) ∧
    queryEscape "São Paulo" = "S%C3%A3o+Paulo" := by
  refine ⟨?_, by decide⟩
  by_cases hv : validCEP (path.drop 1) = false
  · rw [handler_invalid env path hv] at h200
    simp at h200
  · have hv2 : validCEP (path.drop 1) = true := by
      cases hvb : validCEP (path.drop 1)
      · exact absurd hvb hv
      · rfl
    cases h1 : env.geocode (viaCepURLFor (path.drop 1)) with
    | transportError =>
      rw [handler_geoTransport env path hv2 h1] at h200
      simp at h200
    | response s b =>
      have hred := handler_geoResponse env path s b hv2 h1
      rw [hred] at h200
      cases h2 : unmarshalBodyViaCEP b with
      | error e =>
        cases e
        rw [afterViaCep_decodeErr env.weather env.cfg.weatherAPIKey (path.drop 1) b h2]
          at h200
        simp at h200
      | ok d =>
        by_cases hcond : (d.erro || d.localidade == "") = true
        · rw [afterViaCep_notFound env.weather env.cfg.weatherAPIKey (path.drop 1) b d
            h2 hcond] at h200
          simp at h200
        · have hcondf : (d.erro || d.localidade == "") = false := by
            cases hb : (d.erro || d.localidade == "")
            · rfl
            · exact absurd hb hcond
          cases h3 : env.weather
              (weatherURLFor env.cfg.weatherAPIKey (queryEscape d.localidade)) with
          | transportError =>
            rw [afterViaCep_weatherTransport env.weather env.cfg.weatherAPIKey
              (path.drop 1) b d h2 hcondf h3] at h200
            simp at h200
          | response s2 b2 =>
            have hred2 := afterViaCep_weatherResponse env.weather env.cfg.weatherAPIKey
              (path.drop 1) b d s2 b2 h2 hcondf h3
            rw [hred2] at h200
            cases h4 : unmarshalBodyWeather b2 with
            | error e =>
              cases e
              rw [afterWeather_decodeErr d.localidade env.cfg.weatherAPIKey
                (path.drop 1) b2 h4] at h200
              simp at h200
            | ok wd =>
              have hfin := afterWeather_success d.localidade env.cfg.weatherAPIKey
                (path.drop 1) b2 wd h4
              refine ⟨s, b, d, s2, b2, wd, rfl, h2, h3, h4, rfl, ?_, ?_⟩
              · rw [hred, hred2, hfin]
              · rw [hred, hred2, hfin]
                simp [httpCalls, eventCallURL, traceGeo, traceWeather]

/-- Witness for `c6_locality_unmodified_and_escaped` on the concrete
success run. -/
theorem c6_locality_witness :
    (handler envSP "/01001000").status = 200 ∧
    ((∃ s b d s2 wb wd,
      envSP.geocode (viaCepURLFor (("/01001000" : String).drop 1)) =
        FetchResult.response s b ∧
      unmarshalBodyViaCEP b = Except.ok d ∧
      envSP.weather (weatherURLFor envSP.cfg.weatherAPIKey (queryEscape d.localidade)) =
        FetchResult.response s2 wb ∧
      unmarshalBodyWeather wb = Except.ok wd ∧
      (assembleTempResponse d.localidade wd.current.temp_c).city = d.localidade ∧
      (handler envSP "/01001000").body =
        encodeTempResponse (assembleTempResponse d.localidade wd.current.temp_c) ++ "\n" ∧
      httpCalls (handler envSP "/01001000").trace =
        [viaCepURLFor (("/01001000" : String).drop 1),
         weatherURLFor envSP.cfg.weatherAPIKey (queryEscape d.localidade)]) ∧
     queryEscape "São Paulo" = "S%C3%A3o+Paulo") :=
  ⟨by with_unfolding_all decide,
   c6_locality_unmodified_and_escaped envSP "/01001000" (by with_unfolding_all decide)⟩
